import Mathlib

/-!
Verification of the See-Think-Act desktop-automation agent.

This file gives a shallow embedding of the agent's own logic:
the coordinate rescaling and dispatch of `utils/action_executor.py`
(`ActionExecutor`), the response parsing of `utils/ollama_client.py`
(`OllamaVisionClient.parse_computer_use_action`), and the control loop of
`see_think_act_agent.py` (`SeeThinkActAgent._execute_action` and
`SeeThinkActAgent.run`).

Embedding conventions:
- OS input synthesis (pyautogui calls) is modelled as an emitted trace of
  primitive effects (`Prim`); the OS calls themselves are assumed to
  succeed, so the booleans returned by the executor reflect only the
  executor's own dispatch logic, exactly as written in the source.
- Python's float expression `int((norm / 1000.0) * dim)` is modelled by
  exact arithmetic: truncation of `norm * dim / 1000`, which for the
  natural-number inputs used here is Lean's `Nat` division.
- JSON decoding of a discovered `<tool_call>` payload (Python `json.loads`)
  is an external library call and is modelled as an explicit parameter
  `jd : String -> Option ParsedAction`; `none` models a decode failure
  (`json.JSONDecodeError`).
- Dictionaries with optional keys are modelled as structures with `Option`
  fields; `dict.get(k, d)` becomes `Option.getD`.
- Wall-clock `elapsed_time` is not modelled; `time.sleep` calls appear in
  the effect trace as `Prim.sleep`.
- The nondeterministic environment of a run (the model service's replies,
  a user interrupt, or an exception during an iteration) is a function
  `env : Nat -> IterEvent` giving the event of each iteration.
-/

namespace STA

/-- Arguments of a `computer` tool call, after JSON decoding: the optional
keys read by `ActionExecutor._execute_computer_action` and
`SeeThinkActAgent._execute_action`. -/
structure Args where
  action : Option String := none
  coordinate : Option (Nat × Nat) := none
  text : Option String := none
  scroll_amount : Option Int := none
  status : Option String := none
deriving DecidableEq, Repr

/-- Primitive OS-level effects performed via pyautogui, plus `time.sleep`. -/
inductive Prim where
  | click (x y : Nat) (button : String) (clicks : Nat)
  | moveMouse (x y : Nat)
  | dragTo (x y : Nat)
  | typeWrite (t : String)
  | press (k : String)
  | scrollWheel (n : Int)
  | sleep (seconds : ℚ)
  | cursorPosition
deriving DecidableEq, Repr

namespace ActionExecutor

/-- `ActionExecutor.click`: issues one pyautogui click and returns True. -/
def click (x y : Nat) (button : String) (clicks : Nat) : List Prim × Bool :=
  ([Prim.click x y button clicks], true)

/-- `ActionExecutor.click_normalized`: converts a 0-1000 normalized
coordinate to pixels with `int((norm / 1000.0) * dim)` (truncation) and
clicks there. `W`, `H` are `screen_width`, `screen_height`. -/
def click_normalized (W H : Nat) (x_norm y_norm : Nat)
    (button : String) (clicks : Nat) : List Prim × Bool :=
  click (x_norm * W / 1000) (y_norm * H / 1000) button clicks

/-- `ActionExecutor.move_mouse`. -/
def move_mouse (x y : Nat) : List Prim × Bool :=
  ([Prim.moveMouse x y], true)

/-- `ActionExecutor.type_text`. -/
def type_text (t : String) : List Prim × Bool :=
  ([Prim.typeWrite t], true)

/-- `ActionExecutor.press_key`. -/
def press_key (k : String) : List Prim × Bool :=
  ([Prim.press k], true)

/-- `ActionExecutor.scroll`. -/
def scroll (clicks : Int) : List Prim × Bool :=
  ([Prim.scrollWheel clicks], true)

/-- `ActionExecutor.drag`. -/
def drag (x y : Nat) : List Prim × Bool :=
  ([Prim.dragTo x y], true)

/-- `ActionExecutor.wait`: sleeps and returns True unconditionally. -/
def wait (seconds : ℚ) : List Prim × Bool :=
  ([Prim.sleep seconds], true)

/-- `ActionExecutor._execute_computer_action`: dispatch over the `action`
tag, exactly the if/elif chain of the source (note: the source has no
branch for `wait`, which therefore falls through to the unknown-action
fallback). -/
def execute_computer_action (W H : Nat) (args : Args) : List Prim × Bool :=
  match args.action with
  | some "left_click" =>
      let c := args.coordinate.getD (500, 500)
      click_normalized W H c.1 c.2 "left" 1
  | some "left_click_drag" =>
      let c := args.coordinate.getD (500, 500)
      drag (c.1 * W / 1000) (c.2 * H / 1000)
  | some "right_click" =>
      let c := args.coordinate.getD (500, 500)
      click_normalized W H c.1 c.2 "right" 1
  | some "double_click" =>
      let c := args.coordinate.getD (500, 500)
      click_normalized W H c.1 c.2 "left" 2
  | some "middle_click" =>
      let c := args.coordinate.getD (500, 500)
      click_normalized W H c.1 c.2 "middle" 1
  | some "mouse_move" =>
      let c := args.coordinate.getD (500, 500)
      move_mouse (c.1 * W / 1000) (c.2 * H / 1000)
  | some "type" =>
      type_text (args.text.getD "")
  | some "key" =>
      press_key (args.text.getD "enter")
  | some "scroll" =>
      scroll (args.scroll_amount.getD 0)
  | some "screenshot" =>
      ([], true)
  | some "cursor_position" =>
      ([Prim.cursorPosition], true)
  | _ =>
      ([], false)

/-- An action record handed to `execute_computer_use_action`: the flattened
`name`/`arguments` pair (arguments already JSON-decoded). -/
structure ToolAction where
  name : Option String := none
  arguments : Args := {}
deriving DecidableEq, Repr

/-- `ActionExecutor.execute_computer_use_action`: routes `computer` /
`computer_use` to the dispatch, anything else is a warning and False. -/
def execute_computer_use_action (W H : Nat) (a : ToolAction) : List Prim × Bool :=
  if a.name == some "computer" || a.name == some "computer_use" then
    execute_computer_action W H a.arguments
  else
    ([], false)

end ActionExecutor

/-- Whether `pat` is a leading segment of `s` (on character lists;
structural recursion, so that concrete runs evaluate definitionally). -/
def startsWithChars : List Char → List Char → Bool
  | _, [] => true
  | [], _ :: _ => false
  | c :: cs, p :: ps => c == p && startsWithChars cs ps

/-- Whether `pat` occurs somewhere in `s` (character lists). -/
def containsChars : List Char → List Char → Bool
  | [], pat => startsWithChars [] pat
  | c :: cs, pat => startsWithChars (c :: cs) pat || containsChars cs pat

/-- Python's substring operator `sub in s`. -/
def strContains (s sub : String) : Bool :=
  containsChars s.data sub.data

/-- Everything after the first occurrence of `pat` in `s` (character
lists); `[]` when `pat` does not occur. -/
def afterFirst : List Char → List Char → List Char
  | [], _ => []
  | c :: cs, pat =>
    if startsWithChars (c :: cs) pat then List.drop pat.length (c :: cs)
    else afterFirst cs pat

/-- Everything before the first occurrence of `pat` in `s` (character
lists); all of `s` when `pat` does not occur. -/
def beforeFirst : List Char → List Char → List Char
  | [], _ => []
  | c :: cs, pat =>
    if startsWithChars (c :: cs) pat then []
    else c :: beforeFirst cs pat

/-- Python's `str.strip()`: drop leading and trailing whitespace. -/
def trimChars (s : List Char) : List Char :=
  ((s.dropWhile Char.isWhitespace).reverse.dropWhile Char.isWhitespace).reverse

/-- Python's `str.lower()`. -/
def lower (s : String) : String :=
  String.mk (s.data.map Char.toLower)

/-- One structured tool call as it appears in an Ollama reply's
`message.tool_calls` list: a `function` record with optional `name` and
JSON-decoded `arguments`. -/
structure ToolCall where
  name : Option String := none
  arguments : Args := {}
deriving DecidableEq, Repr

/-- The part of an Ollama chat response read by the agent: the optional
`message.tool_calls` list and the optional `message.content` text. -/
structure Response where
  tool_calls : List ToolCall := []
  content : Option String := none
deriving DecidableEq, Repr

/-- Result of `OllamaVisionClient.parse_computer_use_action`: either a raw
tool call (a dict with a `function` key, as returned from
`message.tool_calls`) or a dict decoded from the `<tool_call>` payload in
the content (no `function` key; `name` optional, defaulting later to
`computer`). -/
inductive ParsedAction where
  | withFunction (name : Option String) (arguments : Args)
  | direct (name : Option String) (arguments : Args)
deriving DecidableEq, Repr

/-- The payload extraction of `parse_computer_use_action`:
`content.split('<tool_call>')[1].split('</tool_call>')[0].strip()`,
i.e. (given that the opening marker occurs) the text after the first
`<tool_call>`, truncated at the next `<tool_call>` if any, truncated at
the first `</tool_call>` if any, and stripped. -/
def extractPayload (content : String) : String :=
  String.mk (trimChars (beforeFirst
    (beforeFirst (afterFirst content.data "<tool_call>".data) "<tool_call>".data)
    "</tool_call>".data))

/-- `OllamaVisionClient.parse_computer_use_action`: prefer the first
structured tool call; otherwise scan the content for a `<tool_call>` ...
`</tool_call>` payload and JSON-decode it (`jd`); a decode failure is
caught and yields `none`. A total function: it never raises. -/
def parse_computer_use_action (jd : String → Option ParsedAction)
    (r : Response) : Option ParsedAction :=
  match r.tool_calls with
  | tc :: _ => some (ParsedAction.withFunction tc.name tc.arguments)
  | [] =>
    match r.content with
    | some content =>
      if strContains content "<tool_call>" ∧ strContains content "</tool_call>" then
        match jd (extractPayload content) with
        | some a => some a
        | none => none
      else
        none
    | none => none

/-- The `action_name` / `arguments` extraction of
`SeeThinkActAgent._execute_action`: a dict with a `function` key gives
`details.get('name')` (no default) and its arguments; otherwise
`action.get('name', 'computer')` and `action.get('arguments', {})`. -/
def actionNameArgs : ParsedAction → Option String × Args
  | ParsedAction.withFunction n a => (n, a)
  | ParsedAction.direct n a => (some (n.getD "computer"), a)

/-- Mutable loop state of `SeeThinkActAgent` reset at the top of `run`. -/
structure AgentState where
  iteration_count : Nat := 0
  task_completed : Bool := false
  task_status : Option String := none
deriving DecidableEq, Repr

/-- `SeeThinkActAgent._execute_action`: parse the reply; with no action,
fall back to scanning the content for the substrings `terminate` /
`complete` (lowercased) as a textual completion signal; intercept
`terminate` and `answer`; otherwise dispatch to the executor and, on
success for a non-`wait` action, sleep 1 second. Returns the updated
state, the success boolean, and the trace of emitted effects. -/
def execute_action (W H : Nat) (jd : String → Option ParsedAction)
    (st : AgentState) (r : Response) : AgentState × Bool × List Prim :=
  match parse_computer_use_action jd r with
  | none =>
    match r.content with
    | some content =>
      if strContains (lower content) "terminate" || strContains (lower content) "complete" then
        ({st with task_completed := true, task_status := some "success"}, true, [])
      else
        (st, false, [])
    | none => (st, false, [])
  | some pa =>
    let na := actionNameArgs pa
    if na.2.action == some "terminate" then
      ({st with task_completed := true,
                task_status := some (na.2.status.getD "success")}, true, [])
    else if na.2.action == some "answer" then
      (st, true, [])
    else
      let er := ActionExecutor.execute_computer_use_action W H
        {name := na.1, arguments := na.2}
      if er.2 && na.2.action != some "wait" then
        (st, er.2, er.1 ++ [Prim.sleep 1])
      else
        (st, er.2, er.1)

/-- Condition under which one call to `execute_action` marks the task
completed (read off the two completing branches of the source: a parsed
`terminate` action, or no parsed action together with the textual
`terminate` / `complete` heuristic on the content). -/
def completes (jd : String → Option ParsedAction) (r : Response) : Bool :=
  match parse_computer_use_action jd r with
  | none =>
    match r.content with
    | some content =>
      strContains (lower content) "terminate" || strContains (lower content) "complete"
    | none => false
  | some pa => (actionNameArgs pa).2.action == some "terminate"

/-- The user prompt assembled by `SeeThinkActAgent._think_and_decide`,
conditioned on the current `iteration_count`. -/
def userPrompt (task : String) (iteration_count : Nat) : String :=
  if iteration_count = 0 then
    "Task: " ++ task ++ "\n\nThis is the current state of the desktop. What should I do first to accomplish this task?"
  else
    "Task: " ++ task ++ "\n\nThis is the current state after the previous action. What should I do next?"

/-- Environment event of one loop iteration: a reply from the model
service, a user interrupt (`KeyboardInterrupt`), or an exception raised
during the iteration (capture or inference failure). -/
inductive IterEvent where
  | reply (r : Response)
  | interrupt
  | failure (msg : String)
deriving Repr

/-- Observable trace entries of a run: a screenshot capture, a user prompt
sent to the model, or a primitive OS effect / sleep. -/
inductive TraceEntry where
  | capture
  | prompt (s : String)
  | prim (p : Prim)
deriving DecidableEq, Repr

/-- The `Run Result` dictionary built by `SeeThinkActAgent.run`
(`elapsed_time`, a wall-clock reading, is not modelled). -/
structure RunResult where
  success : Bool
  status : Option String
  message : String
  iterations : Nat
deriving DecidableEq, Repr

/-- The result built after the while loop of `run`: the completed-task
result when `task_completed` is set, the timeout result otherwise. -/
def finalResult (max_iterations : Nat) (st : AgentState) : RunResult :=
  if st.task_completed then
    {success := st.task_status == some "success",
     status := st.task_status,
     message := "Task completed in " ++ toString st.iteration_count ++ " iterations",
     iterations := st.iteration_count}
  else
    {success := false,
     status := some "timeout",
     message := "Task did not complete within " ++ toString max_iterations ++ " iterations",
     iterations := st.iteration_count}

/-- The while loop of `SeeThinkActAgent.run`, with `fuel` the number of
remaining iterations allowed by `iteration_count < max_iterations`. Each
iteration increments the counter first, then captures, sends the prompt,
executes the reply's action, and sleeps 0.5 s; an interrupt or an
exception during the iteration produces the corresponding terminal
result. Returns the run result and the trace of this and later
iterations. -/
def runLoop (W H max_iterations : Nat) (jd : String → Option ParsedAction)
    (task : String) (env : Nat → IterEvent) :
    Nat → AgentState → RunResult × List TraceEntry
  | 0, st => (finalResult max_iterations st, [])
  | fuel + 1, st =>
    if st.task_completed then
      (finalResult max_iterations st, [])
    else
      let st1 := {st with iteration_count := st.iteration_count + 1}
      match env st1.iteration_count with
      | IterEvent.interrupt =>
        ({success := false, status := some "interrupted",
          message := "Task interrupted by user",
          iterations := st1.iteration_count}, [])
      | IterEvent.failure m =>
        ({success := false, status := some "error",
          message := "Error: " ++ m,
          iterations := st1.iteration_count}, [])
      | IterEvent.reply r =>
        let ea := execute_action W H jd st1 r
        let rest := runLoop W H max_iterations jd task env fuel ea.1
        (rest.1,
          [TraceEntry.capture, TraceEntry.prompt (userPrompt task st1.iteration_count)]
            ++ ea.2.2.map TraceEntry.prim
            ++ [TraceEntry.prim (Prim.sleep (1/2))]
            ++ rest.2)

/-- `SeeThinkActAgent.run`: reset the state and run the loop with at most
`max_iterations` iterations. -/
def run (W H : Nat) (jd : String → Option ParsedAction) (task : String)
    (env : Nat → IterEvent) (max_iterations : Nat) : RunResult × List TraceEntry :=
  runLoop W H max_iterations jd task env max_iterations {}

/-! Helper lemmas about the loop and the action step. -/

/-- A non-completing reply leaves the agent state unchanged. -/
theorem execute_action_fst_of_not_completes (W H : Nat)
    (jd : String → Option ParsedAction) (st : AgentState) (r : Response)
    (h : completes jd r = false) :
    (execute_action W H jd st r).1 = st := by
  unfold execute_action
  unfold completes at h
  rcases hp : parse_computer_use_action jd r with _ | pa <;>
    simp only [hp] at h ⊢
  · rcases hc : r.content with _ | c <;> simp only [hc] at h ⊢
    simp at h
    simp [h]
  · simp at h
    simp only [beq_iff_eq]
    rw [if_neg h]
    split
    · rfl
    · split <;> rfl

/-- A completing reply sets `task_completed` and leaves the iteration
counter unchanged. -/
theorem execute_action_completed_of_completes (W H : Nat)
    (jd : String → Option ParsedAction) (st : AgentState) (r : Response)
    (h : completes jd r = true) :
    (execute_action W H jd st r).1.task_completed = true ∧
    (execute_action W H jd st r).1.iteration_count = st.iteration_count := by
  unfold execute_action
  unfold completes at h
  rcases hp : parse_computer_use_action jd r with _ | pa <;>
    simp only [hp] at h ⊢
  · rcases hc : r.content with _ | c <;> simp only [hc] at h ⊢
    · simp at h
    · simp at h
      simp [h]
  · simp at h
    simp only [beq_iff_eq]
    rw [if_pos h]
    exact ⟨rfl, rfl⟩

/-- Once `task_completed` holds, the loop exits immediately with the
final (completed) result and an empty remaining trace. -/
theorem runLoop_of_completed (W H max_iterations : Nat)
    (jd : String → Option ParsedAction) (task : String) (env : Nat → IterEvent)
    (fuel : Nat) (st : AgentState) (h : st.task_completed = true) :
    runLoop W H max_iterations jd task env fuel st =
      (finalResult max_iterations st, []) := by
  cases fuel <;> simp [runLoop, h]

/-- If every iteration available to the loop gets a reply that does not
complete the task, the loop runs out of fuel and produces the timeout
result, having performed exactly `fuel` further iterations. -/
theorem runLoop_timeout (W H max_iterations : Nat)
    (jd : String → Option ParsedAction) (task : String) (env : Nat → IterEvent) :
    ∀ (fuel : Nat) (st : AgentState), st.task_completed = false →
    (∀ k, st.iteration_count < k → k ≤ st.iteration_count + fuel →
      ∃ r, env k = IterEvent.reply r ∧ completes jd r = false) →
    (runLoop W H max_iterations jd task env fuel st).1 =
      {success := false, status := some "timeout",
       message := "Task did not complete within " ++ toString max_iterations ++ " iterations",
       iterations := st.iteration_count + fuel} := by
  intro fuel
  induction fuel with
  | zero =>
    intro st hst _
    simp [runLoop, finalResult, hst]
  | succ n ih =>
    intro st hst henv
    obtain ⟨ic, tc, ts⟩ := st
    dsimp only at hst henv ⊢
    subst hst
    obtain ⟨r, hr, hcf⟩ := henv (ic + 1) (by omega) (by omega)
    have hstep := execute_action_fst_of_not_completes W H jd ⟨ic + 1, false, ts⟩ r hcf
    have hrec := ih ⟨ic + 1, false, ts⟩ rfl (by
      intro k h1 h2
      dsimp only at h1 h2
      exact henv k (by omega) (by omega))
    dsimp only at hrec
    simp only [runLoop, Bool.false_eq_true, if_false, hr]
    rw [hstep, hrec]
    have harith : ic + 1 + n = ic + (n + 1) := by omega
    rw [harith]

/-- The completed-or-timeout result satisfies: success iff status is
`success`. -/
theorem finalResult_success_iff (m : Nat) (st : AgentState) :
    ((finalResult m st).success = true) ↔
    ((finalResult m st).status = some "success") := by
  unfold finalResult
  split
  · simp [beq_iff_eq]
  · simp

/-- On every path through the loop, the result's `success` boolean holds
exactly when its `status` is `success`. -/
theorem runLoop_success_iff (W H max_iterations : Nat)
    (jd : String → Option ParsedAction) (task : String) (env : Nat → IterEvent) :
    ∀ (fuel : Nat) (st : AgentState),
      ((runLoop W H max_iterations jd task env fuel st).1.success = true ↔
       (runLoop W H max_iterations jd task env fuel st).1.status = some "success") := by
  intro fuel
  induction fuel with
  | zero =>
    intro st
    simpa [runLoop] using finalResult_success_iff max_iterations st
  | succ n ih =>
    intro st
    cases hb : st.task_completed with
    | true =>
      simpa [runLoop, hb] using finalResult_success_iff max_iterations st
    | false =>
      rcases henv : env (st.iteration_count + 1) with r | _ | m <;>
        simp only [runLoop, hb, Bool.false_eq_true, if_false, henv]
      · exact ih _
      · simp
      · simp

/-! Claims. -/

/-- Claim C1, counterexample: the rescaling in the click path does not
round. At normalized x = 1 on a 1920-wide screen the code produces pixel
x = 1 (truncation of 1.92), while `round(1/1000*1920) = 2`. -/
theorem C1_rescale_not_round :
    ActionExecutor.execute_computer_action 1920 1080
        {action := some "left_click", coordinate := some (1, 1)} =
      ([Prim.click 1 1 "left" 1], true)
    ∧ round ((1 : ℚ) / 1000 * 1920) = 2
    ∧ (1 : ℤ) ≠ 2 := by
  refine ⟨rfl, ?_, by decide⟩
  have h : ((1 : ℚ) / 1000 * 1920 + 1 / 2) = 121 / 50 := by norm_num
  rw [round_eq, h]
  rw [Int.floor_eq_iff]
  norm_num

/-- Claim C1, amended: for every normalized coordinate (x, y) with
0 ≤ x, y ≤ 1000 and every screen dimension pair (W, H), the pixel
coordinate produced by coordinate rescaling in the click/move/drag path
equals the truncation (floor) of (x/1000*W, y/1000*H) — Python `int()`,
not `round` — and always lies within [0, W] × [0, H]. -/
theorem C1_rescale_truncates_in_range (x y W H : Nat)
    (hx : x ≤ 1000) (hy : y ≤ 1000) :
    (ActionExecutor.execute_computer_action W H
        {action := some "left_click", coordinate := some (x, y)} =
      ([Prim.click (x * W / 1000) (y * H / 1000) "left" 1], true))
    ∧ (ActionExecutor.execute_computer_action W H
        {action := some "right_click", coordinate := some (x, y)} =
      ([Prim.click (x * W / 1000) (y * H / 1000) "right" 1], true))
    ∧ (ActionExecutor.execute_computer_action W H
        {action := some "double_click", coordinate := some (x, y)} =
      ([Prim.click (x * W / 1000) (y * H / 1000) "left" 2], true))
    ∧ (ActionExecutor.execute_computer_action W H
        {action := some "middle_click", coordinate := some (x, y)} =
      ([Prim.click (x * W / 1000) (y * H / 1000) "middle" 1], true))
    ∧ (ActionExecutor.execute_computer_action W H
        {action := some "mouse_move", coordinate := some (x, y)} =
      ([Prim.moveMouse (x * W / 1000) (y * H / 1000)], true))
    ∧ (ActionExecutor.execute_computer_action W H
        {action := some "left_click_drag", coordinate := some (x, y)} =
      ([Prim.dragTo (x * W / 1000) (y * H / 1000)], true))
    ∧ x * W / 1000 ≤ W ∧ y * H / 1000 ≤ H := by
  refine ⟨rfl, rfl, rfl, rfl, rfl, rfl, ?_, ?_⟩
  · calc x * W / 1000 ≤ 1000 * W / 1000 :=
          Nat.div_le_div_right (Nat.mul_le_mul_right W hx)
      _ = W := Nat.mul_div_cancel_left W (by norm_num)
  · calc y * H / 1000 ≤ 1000 * H / 1000 :=
          Nat.div_le_div_right (Nat.mul_le_mul_right H hy)
      _ = H := Nat.mul_div_cancel_left H (by norm_num)

/-- Witness for C1 at (x, y) = (250, 750) on a 1920 × 1080 screen. -/
theorem C1_rescale_truncates_in_range_witness :
    (250 : Nat) ≤ 1000 ∧ (750 : Nat) ≤ 1000 ∧
    ActionExecutor.execute_computer_action 1920 1080
        {action := some "left_click", coordinate := some (250, 750)} =
      ([Prim.click 480 810 "left" 1], true) ∧
    250 * 1920 / 1000 ≤ 1920 :=
  ⟨by decide, by decide,
   (C1_rescale_truncates_in_range 250 750 1920 1080 (by decide) (by decide)).1,
   (C1_rescale_truncates_in_range 250 750 1920 1080
     (by decide) (by decide)).2.2.2.2.2.2.1⟩

/-- Claim C4: a `wait` action handed to the executor's dispatch is
claimed to block and report success; in the code the dispatch has no
`wait` branch, so the descriptor falls through to the unknown-action
fallback, returning False with no sleep — even though the executor's own
`wait` method (never called by the dispatch) does sleep and return
True. -/
theorem C4_wait_not_dispatched :
    ActionExecutor.execute_computer_use_action 1920 1080
        {name := some "computer", arguments := {action := some "wait"}} =
      ([], false)
    ∧ ActionExecutor.execute_computer_action 1920 1080
        {action := some "wait"} = ([], false)
    ∧ ActionExecutor.wait 2 = ([Prim.sleep 2], true) :=
  ⟨rfl, rfl, rfl⟩

/-- Claim C9: every click-family, mouse_move, or drag descriptor that
omits the coordinate field behaves exactly as if the coordinate were
[500, 500], and reports success rather than failing. -/
theorem C9_default_coordinate (W H : Nat) (a : String) (args : Args)
    (ha : a = "left_click" ∨ a = "left_click_drag" ∨ a = "right_click" ∨
          a = "double_click" ∨ a = "middle_click" ∨ a = "mouse_move")
    (hact : args.action = some a) (hco : args.coordinate = none) :
    ActionExecutor.execute_computer_action W H args =
      ActionExecutor.execute_computer_action W H
        {args with coordinate := some (500, 500)}
    ∧ (ActionExecutor.execute_computer_action W H args).2 = true := by
  obtain ⟨ao, co, te, sa, su⟩ := args
  dsimp only at hact hco
  subst hact
  subst hco
  rcases ha with h | h | h | h | h | h <;> subst h <;> exact ⟨rfl, rfl⟩

/-- Witness for C9 with an omitted coordinate on `mouse_move`. -/
theorem C9_default_coordinate_witness :
    (("mouse_move" : String) = "left_click" ∨ "mouse_move" = "left_click_drag" ∨
     "mouse_move" = "right_click" ∨ "mouse_move" = "double_click" ∨
     "mouse_move" = "middle_click" ∨ "mouse_move" = "mouse_move")
    ∧ (ActionExecutor.execute_computer_action 1920 1080
        {action := some "mouse_move"}).2 = true
    ∧ ActionExecutor.execute_computer_action 1920 1080
        {action := some "mouse_move"} = ([Prim.moveMouse 960 540], true) :=
  ⟨by simp,
   (C9_default_coordinate 1920 1080 "mouse_move" {action := some "mouse_move"}
     (by simp) rfl rfl).2,
   by
     rw [(C9_default_coordinate 1920 1080 "mouse_move" {action := some "mouse_move"}
       (by simp) rfl rfl).1]
     rfl⟩

/-- Claim C2: a run in which the model produces a `terminate` tool call
ends with Run Result success true and status `success` when the
descriptor's status field is `success`, success false and status
`failure` when it is `failure`, and defaults to success when the field
is omitted. Stated from an arbitrary loop state, so it covers a
terminate descriptor produced at any iteration of a run. -/
theorem C2_terminate_status (W H max_iterations fuel : Nat)
    (jd : String → Option ParsedAction) (task : String) (env : Nat → IterEvent)
    (st : AgentState) (r : Response) (tc : ToolCall) (rest : List ToolCall)
    (hst : st.task_completed = false)
    (henv : env (st.iteration_count + 1) = IterEvent.reply r)
    (htc : r.tool_calls = tc :: rest)
    (hterm : tc.arguments.action = some "terminate") :
    (tc.arguments.status = some "success" →
      (runLoop W H max_iterations jd task env (fuel + 1) st).1.success = true ∧
      (runLoop W H max_iterations jd task env (fuel + 1) st).1.status = some "success")
    ∧ (tc.arguments.status = some "failure" →
      (runLoop W H max_iterations jd task env (fuel + 1) st).1.success = false ∧
      (runLoop W H max_iterations jd task env (fuel + 1) st).1.status = some "failure")
    ∧ (tc.arguments.status = none →
      (runLoop W H max_iterations jd task env (fuel + 1) st).1.success = true ∧
      (runLoop W H max_iterations jd task env (fuel + 1) st).1.status = some "success") := by
  obtain ⟨ic, b, ts⟩ := st
  dsimp only at hst henv ⊢
  subst hst
  have hparse : parse_computer_use_action jd r =
      some (ParsedAction.withFunction tc.name tc.arguments) := by
    unfold parse_computer_use_action
    rw [htc]
  have hexec : execute_action W H jd ⟨ic + 1, false, ts⟩ r =
      (⟨ic + 1, true, some (tc.arguments.status.getD "success")⟩, true, []) := by
    unfold execute_action
    rw [hparse]
    dsimp only [actionNameArgs]
    rw [hterm]
    rfl
  have hres : (runLoop W H max_iterations jd task env (fuel + 1) ⟨ic, false, ts⟩).1 =
      finalResult max_iterations
        ⟨ic + 1, true, some (tc.arguments.status.getD "success")⟩ := by
    simp only [runLoop, Bool.false_eq_true, if_false, henv]
    rw [hexec, runLoop_of_completed _ _ _ _ _ _ _ _ rfl]
  rw [hres]
  unfold finalResult
  refine ⟨?_, ?_, ?_⟩ <;> intro hs <;> rw [hs] <;> exact ⟨rfl, rfl⟩

/-- Witness for C2: a terminate tool call with the status field omitted,
produced on the first iteration. -/
theorem C2_terminate_status_witness :
    (({} : AgentState).task_completed = false)
    ∧ (({name := some "computer", arguments := {action := some "terminate"}}
          : ToolCall).arguments.action = some "terminate")
    ∧ ((none : Option String) = none →
      (runLoop 1920 1080 3 (fun _ => none) "t"
          (fun _ => IterEvent.reply
            {tool_calls := [{name := some "computer",
                             arguments := {action := some "terminate"}}]})
          (2 + 1) {}).1.success = true ∧
      (runLoop 1920 1080 3 (fun _ => none) "t"
          (fun _ => IterEvent.reply
            {tool_calls := [{name := some "computer",
                             arguments := {action := some "terminate"}}]})
          (2 + 1) {}).1.status = some "success") :=
  ⟨rfl, rfl,
   (C2_terminate_status 1920 1080 3 2 (fun _ => none) "t"
     (fun _ => IterEvent.reply
       {tool_calls := [{name := some "computer",
                        arguments := {action := some "terminate"}}]})
     {} {tool_calls := [{name := some "computer",
                         arguments := {action := some "terminate"}}]}
     {name := some "computer", arguments := {action := some "terminate"}} []
     rfl rfl rfl rfl).2.2⟩

/-- Claim C3, counterexample: a run of max_iterations = 1 steps in which
the model never produces a terminate descriptor (its reply parses to no
action at all), yet the Run Result is `success`, not `timeout`, because
the reply's plain text contains the substring `complete` and triggers
the textual completion heuristic. -/
theorem C3_textual_completion_preempts_timeout :
    parse_computer_use_action (fun _ => none)
        {tool_calls := [], content := some "complete"} = none
    ∧ (run 1920 1080 (fun _ => none) "t"
        (fun _ => IterEvent.reply {tool_calls := [], content := some "complete"})
        1).1.iterations = 1
    ∧ (run 1920 1080 (fun _ => none) "t"
        (fun _ => IterEvent.reply {tool_calls := [], content := some "complete"})
        1).1.status = some "success"
    ∧ (run 1920 1080 (fun _ => none) "t"
        (fun _ => IterEvent.reply {tool_calls := [], content := some "complete"})
        1).1.status ≠ some "timeout" :=
  ⟨rfl, rfl, rfl, by decide⟩

/-- Claim C3, amended: if within max_iterations steps every model reply
neither produces a terminate descriptor nor triggers the textual
completion heuristic (no parsed action whose type is terminate, and for
unparsed replies no `terminate` / `complete` substring in the lowercased
content — together: `completes` is false) and no interrupt or exception
occurs, the Run Result has status exactly `timeout`, success false, and
iterations equal to max_iterations. -/
theorem C3_timeout_amended (W H max_iterations : Nat)
    (jd : String → Option ParsedAction) (task : String) (env : Nat → IterEvent)
    (henv : ∀ k, 1 ≤ k → k ≤ max_iterations →
      ∃ r, env k = IterEvent.reply r ∧ completes jd r = false) :
    (run W H jd task env max_iterations).1.status = some "timeout"
    ∧ (run W H jd task env max_iterations).1.success = false
    ∧ (run W H jd task env max_iterations).1.iterations = max_iterations := by
  have h0 := runLoop_timeout W H max_iterations jd task env max_iterations
    ⟨0, false, none⟩ rfl
    (by
      intro k h1 h2
      have h1' : 0 < k := h1
      have h2' : k ≤ 0 + max_iterations := h2
      exact henv k (by omega) (by omega))
  unfold run
  rw [h0]
  refine ⟨rfl, rfl, ?_⟩
  simp

/-- Witness for C3 (amended): two iterations of replies that carry no
action and no completion keyword end in a timeout after 2 iterations. -/
theorem C3_timeout_amended_witness :
    (∀ k, 1 ≤ k → k ≤ 2 →
      ∃ r, (fun _ => IterEvent.reply ({} : Response)) k = IterEvent.reply r ∧
        completes (fun _ => none) r = false)
    ∧ (run 1920 1080 (fun _ => none) "t"
        (fun _ => IterEvent.reply ({} : Response)) 2).1.status = some "timeout"
    ∧ (run 1920 1080 (fun _ => none) "t"
        (fun _ => IterEvent.reply ({} : Response)) 2).1.iterations = 2 := by
  have hk : ∀ k, 1 ≤ k → k ≤ 2 →
      ∃ r, (fun _ => IterEvent.reply ({} : Response)) k = IterEvent.reply r ∧
        completes (fun _ => none) r = false := by
    intro k _ _
    exact ⟨{}, rfl, rfl⟩
  have h := C3_timeout_amended 1920 1080 2 (fun _ => none) "t"
    (fun _ => IterEvent.reply ({} : Response)) hk
  exact ⟨hk, h.1, h.2.2⟩

/-- Claim C5: the first loop iteration is claimed to ask "what should I
do first"; in the code `iteration_count` is incremented before
`_think_and_decide` runs, so the `iteration_count == 0` branch is dead
during `run()` and the very first prompt already asks "What should I do
next?". -/
theorem C5_first_iteration_asks_next :
    (run 1920 1080 (fun _ => none) "t"
        (fun _ => IterEvent.reply ({} : Response)) 1).2 =
      [TraceEntry.capture,
       TraceEntry.prompt (userPrompt "t" 1),
       TraceEntry.prim (Prim.sleep (1 / 2))]
    ∧ userPrompt "t" 1 =
      "Task: t\n\nThis is the current state after the previous action. What should I do next?"
    ∧ userPrompt "t" 0 =
      "Task: t\n\nThis is the current state of the desktop. What should I do first to accomplish this task?"
    ∧ userPrompt "t" 1 ≠ userPrompt "t" 0 :=
  ⟨rfl, rfl, rfl, by decide⟩

/-- Claim C6, counterexample: a reply with no tool call and no delimited
payload parses to no action, yet the iteration does not proceed with an
unsuccessful action and the loop does not continue: because the plain
text contains `complete`, the step reports success, marks the task
completed, and a 3-iteration run stops after iteration 1. -/
theorem C6_keyword_reply_completes_run :
    parse_computer_use_action (fun _ => none)
        {tool_calls := [], content := some "Task complete."} = none
    ∧ (execute_action 1920 1080 (fun _ => none) {iteration_count := 1}
        {tool_calls := [], content := some "Task complete."}).2.1 = true
    ∧ (execute_action 1920 1080 (fun _ => none) {iteration_count := 1}
        {tool_calls := [], content := some "Task complete."}).1.task_completed = true
    ∧ (run 1920 1080 (fun _ => none) "t"
        (fun _ => IterEvent.reply {tool_calls := [], content := some "Task complete."})
        3).1.iterations = 1 :=
  ⟨rfl, rfl, rfl, rfl⟩

/-- Claim C6, amended: a model reply with no structured tool call whose
delimited payload (if any) fails to decode never raises out of the
parsing step (parsing is a total function returning no action; malformed
JSON in a discovered payload is swallowed as "no action found"); when
additionally the lowercased content contains neither `terminate` nor
`complete`, the iteration proceeds with an unsuccessful action and an
unchanged state, and the loop continues without aborting the run. -/
theorem C6_unparseable_reply_amended (W H max_iterations fuel : Nat)
    (jd : String → Option ParsedAction) (task : String) (env : Nat → IterEvent)
    (st : AgentState) (c : String)
    (hst : st.task_completed = false)
    (henv : env (st.iteration_count + 1) =
      IterEvent.reply {tool_calls := [], content := some c})
    (hjd : jd (extractPayload c) = none)
    (hkw : (strContains (lower c) "terminate" || strContains (lower c) "complete") = false) :
    parse_computer_use_action jd {tool_calls := [], content := some c} = none
    ∧ execute_action W H jd {st with iteration_count := st.iteration_count + 1}
        {tool_calls := [], content := some c} =
      ({st with iteration_count := st.iteration_count + 1}, false, [])
    ∧ (runLoop W H max_iterations jd task env (fuel + 1) st).1 =
      (runLoop W H max_iterations jd task env fuel
        {st with iteration_count := st.iteration_count + 1}).1 := by
  obtain ⟨ic, b, ts⟩ := st
  dsimp only at hst henv ⊢
  subst hst
  have hparse : parse_computer_use_action jd
      {tool_calls := [], content := some c} = none := by
    unfold parse_computer_use_action
    dsimp only
    split
    · simp [hjd]
    · rfl
  have hexec : execute_action W H jd ⟨ic + 1, false, ts⟩
      {tool_calls := [], content := some c} = (⟨ic + 1, false, ts⟩, false, []) := by
    unfold execute_action
    rw [hparse]
    dsimp only
    rw [hkw]
    rfl
  refine ⟨hparse, hexec, ?_⟩
  simp only [runLoop, Bool.false_eq_true, if_false, henv]
  rw [hexec]

/-- Witness for C6: a reply whose content carries markers around a
malformed payload and no completion keyword; the run proceeds to the next
iteration and times out rather than aborting. -/
theorem C6_unparseable_reply_amended_witness :
    ((fun _ => IterEvent.reply
        ({tool_calls := [], content := some "<tool_call>oops</tool_call>"} : Response))
      (({} : AgentState).iteration_count + 1) =
      IterEvent.reply {tool_calls := [], content := some "<tool_call>oops</tool_call>"})
    ∧ ((fun _ => (none : Option ParsedAction))
        (extractPayload "<tool_call>oops</tool_call>") = none)
    ∧ parse_computer_use_action (fun _ => none)
        {tool_calls := [], content := some "<tool_call>oops</tool_call>"} = none
    ∧ (runLoop 1920 1080 1 (fun _ => none) "t"
        (fun _ => IterEvent.reply
          {tool_calls := [], content := some "<tool_call>oops</tool_call>"})
        (0 + 1) {}).1 =
      (runLoop 1920 1080 1 (fun _ => none) "t"
        (fun _ => IterEvent.reply
          {tool_calls := [], content := some "<tool_call>oops</tool_call>"})
        0 {iteration_count := 1}).1 :=
  ⟨rfl, rfl,
   (C6_unparseable_reply_amended 1920 1080 1 0 (fun _ => none) "t"
     (fun _ => IterEvent.reply
       {tool_calls := [], content := some "<tool_call>oops</tool_call>"})
     {} "<tool_call>oops</tool_call>" rfl rfl rfl (by decide)).1,
   (C6_unparseable_reply_amended 1920 1080 1 0 (fun _ => none) "t"
     (fun _ => IterEvent.reply
       {tool_calls := [], content := some "<tool_call>oops</tool_call>"})
     {} "<tool_call>oops</tool_call>" rfl rfl rfl (by decide)).2.2⟩

/-- Claim C7: when an interrupt arrives during an iteration (before its
reply is acted on), the Run Result has status `interrupted` and success
false, and the interrupted iteration contributes no executed action to
the trace (control flow is sequential, so nothing is left executing). -/
theorem C7_interrupt_result (W H max_iterations fuel : Nat)
    (jd : String → Option ParsedAction) (task : String) (env : Nat → IterEvent)
    (st : AgentState)
    (hst : st.task_completed = false)
    (hint : env (st.iteration_count + 1) = IterEvent.interrupt) :
    (runLoop W H max_iterations jd task env (fuel + 1) st).1.status = some "interrupted"
    ∧ (runLoop W H max_iterations jd task env (fuel + 1) st).1.success = false
    ∧ (runLoop W H max_iterations jd task env (fuel + 1) st).2 = [] := by
  obtain ⟨ic, b, ts⟩ := st
  dsimp only at hst hint ⊢
  subst hst
  simp [runLoop, hint]

/-- Witness for C7: an interrupt on the first iteration of a 5-iteration
run. -/
theorem C7_interrupt_result_witness :
    (({} : AgentState).task_completed = false)
    ∧ (runLoop 1920 1080 5 (fun _ => none) "t" (fun _ => IterEvent.interrupt)
        (4 + 1) {}).1.status = some "interrupted"
    ∧ (runLoop 1920 1080 5 (fun _ => none) "t" (fun _ => IterEvent.interrupt)
        (4 + 1) {}).1.success = false :=
  ⟨rfl,
   (C7_interrupt_result 1920 1080 5 4 (fun _ => none) "t"
     (fun _ => IterEvent.interrupt) {} rfl rfl).1,
   (C7_interrupt_result 1920 1080 5 4 (fun _ => none) "t"
     (fun _ => IterEvent.interrupt) {} rfl rfl).2.1⟩

/-- Claim C8, counterexample: an `answer` action — executed with result
True, and of type neither terminate nor wait — produces no settle pause:
the step returns before the 1-second post-action sleep, so its trace is
empty. -/
theorem C8_answer_skips_settle_pause :
    (execute_action 1920 1080 (fun _ => none) {iteration_count := 1}
        {tool_calls := [{name := some "computer",
                         arguments := {action := some "answer", text := some "hi"}}]})
      = ({iteration_count := 1}, true, [])
    ∧ ("answer" : String) ≠ "terminate"
    ∧ ("answer" : String) ≠ "wait" :=
  ⟨rfl, by decide, by decide⟩

/-- Claim C8, amended: after every action that is dispatched to the
Action Executor (type neither terminate nor answer), reports success,
and is not of type wait, the step appends the fixed 1-second settle sleep
after the executor's effects, before control returns to the loop and the
next capture; terminate and answer return before the pause, and failed
dispatches skip it. -/
theorem C8_settle_after_dispatched_action (W H : Nat)
    (jd : String → Option ParsedAction) (st : AgentState) (r : Response)
    (pa : ParsedAction) (a : String)
    (hp : parse_computer_use_action jd r = some pa)
    (ha : (actionNameArgs pa).2.action = some a)
    (hna : a ≠ "terminate") (hnb : a ≠ "answer") (hnw : a ≠ "wait")
    (hsucc : (ActionExecutor.execute_computer_use_action W H
        {name := (actionNameArgs pa).1, arguments := (actionNameArgs pa).2}).2 = true) :
    execute_action W H jd st r =
      (st, true,
        (ActionExecutor.execute_computer_use_action W H
          {name := (actionNameArgs pa).1, arguments := (actionNameArgs pa).2}).1
        ++ [Prim.sleep 1]) := by
  unfold execute_action
  rw [hp]
  dsimp only
  rw [ha]
  have h1 : ((some a == some "terminate") : Bool) = false := by
    simp [hna]
  have h2 : ((some a == some "answer") : Bool) = false := by
    simp [hnb]
  have h3 : ((some a != some "wait") : Bool) = true := by
    simp [hnw]
  rw [h1, h2]
  simp only [Bool.false_eq_true, if_false]
  rw [hsucc, h3]
  rfl

/-- Witness for C8: a successful `left_click` dispatch is followed by the
settle sleep. -/
theorem C8_settle_after_dispatched_action_witness :
    ("left_click" : String) ≠ "terminate"
    ∧ execute_action 1920 1080 (fun _ => none) {}
        {tool_calls := [{name := some "computer",
                         arguments := {action := some "left_click",
                                       coordinate := some (100, 100)}}]} =
      ({}, true, [Prim.click 192 108 "left" 1, Prim.sleep 1]) :=
  ⟨by decide,
   C8_settle_after_dispatched_action 1920 1080 (fun _ => none) {}
     {tool_calls := [{name := some "computer",
                      arguments := {action := some "left_click",
                                    coordinate := some (100, 100)}}]}
     (ParsedAction.withFunction (some "computer")
       {action := some "left_click", coordinate := some (100, 100)})
     "left_click" rfl rfl (by decide) (by decide) (by decide) rfl⟩

/-- Claim C10: in every Run Result returned by `run`, whatever path
produced it (completion, timeout, interruption, or error), the success
field is true if and only if the status field equals `success`. -/
theorem C10_success_iff_status (W H m : Nat) (jd : String → Option ParsedAction)
    (task : String) (env : Nat → IterEvent) :
    ((run W H jd task env m).1.success = true) ↔
    ((run W H jd task env m).1.status = some "success") :=
  runLoop_success_iff W H m jd task env m {}

end STA
